import Mathlib

/-!
Verification development for the printpal-python client library.

The definitions below are a shallow embedding of the code in
src/printpal/constants.py, src/printpal/models.py and
src/printpal/client.py.  Python enums become inductive types, dicts
become association lists looked up with a default (mirroring dict.get),
Python floats are modelled as rationals, fallible code returns Except,
and the poll loop of PrintPal.wait_for_completion becomes a recursion
over the finite sequence of status responses the server would deliver,
with wall-clock time abstracted as a function from the iteration index
to the elapsed seconds observed by the check of that iteration.
-/

/-- Embedding of the Quality enum of src/printpal/constants.py. -/
inductive Quality where
  | default
  | high
  | ultra
  | super
  | super_texture
  | superplus
  | superplus_texture
deriving DecidableEq

/-- The string value of each Quality member, as in the Python enum. -/
def Quality.value : Quality → String
  | .default => "default"
  | .high => "high"
  | .ultra => "ultra"
  | .super => "super"
  | .super_texture => "super_texture"
  | .superplus => "superplus"
  | .superplus_texture => "superplus_texture"

/-- Construction by value, Quality(s) in Python: some member on success,
none where Python raises ValueError. -/
def Quality.ofString? (s : String) : Option Quality :=
  if s = "default" then some .default
  else if s = "high" then some .high
  else if s = "ultra" then some .ultra
  else if s = "super" then some .super
  else if s = "super_texture" then some .super_texture
  else if s = "superplus" then some .superplus
  else if s = "superplus_texture" then some .superplus_texture
  else none

/-- Embedding of the Format enum of src/printpal/constants.py. -/
inductive Format where
  | stl
  | glb
  | obj
  | ply
  | fbx
deriving DecidableEq

/-- The string value of each Format member. -/
def Format.value : Format → String
  | .stl => "stl"
  | .glb => "glb"
  | .obj => "obj"
  | .ply => "ply"
  | .fbx => "fbx"

/-- Lookup in an association list with a default value, modelling
Python dict.get(key, default). -/
def dictGet {α β : Type} [DecidableEq α] : List (α × β) → α → β → β
  | [], _, dflt => dflt
  | (k2, v) :: rest, k, dflt => if k2 = k then v else dictGet rest k dflt

/-- The GENERATION_TIMEOUTS dict of src/printpal/constants.py
(recommended timeout seconds per quality). -/
def GENERATION_TIMEOUTS : List (Quality × Nat) :=
  [(.default, 120), (.high, 180), (.ultra, 300), (.super, 360),
   (.super_texture, 600), (.superplus, 480), (.superplus_texture, 600)]

/-- The VALID_FORMATS dict of src/printpal/constants.py. -/
def VALID_FORMATS : List (Quality × List Format) :=
  [(.default, [.stl, .glb, .obj, .ply]),
   (.high, [.stl, .glb, .obj, .ply]),
   (.ultra, [.stl, .glb, .obj, .ply]),
   (.super, [.stl, .glb, .obj, .fbx]),
   (.super_texture, [.glb, .obj]),
   (.superplus, [.stl, .glb, .obj, .fbx]),
   (.superplus_texture, [.glb, .obj])]

/-- The list of super-family quality levels that appears literally in
GenerationRequest.validate, PrintPal.generate_from_image and
PrintPal.generate_from_prompt. -/
def superFamily : List Quality :=
  [.super, .super_texture, .superplus, .superplus_texture]

/-- A JSON-ish value as found in server response bodies. -/
inductive JVal where
  | null
  | str (s : String)
  | num (n : Int)
  | bool (b : Bool)
deriving DecidableEq

/-- Python truthiness of a JSON value (None, "", 0 and False are falsy). -/
def truthy : JVal → Bool
  | .null => false
  | .str s => ¬ s = ""
  | .num n => ¬ n = 0
  | .bool b => b

/-- Python x or y on JSON values: the first operand when truthy,
otherwise the second. -/
def pyOr (a b : JVal) : JVal := if truthy a then a else b

/-- Lookup of a key in a JSON object, data[k] when present. -/
def jlookup : List (String × JVal) → String → Option JVal
  | [], _ => none
  | (k2, v) :: rest, k => if k2 = k then some v else jlookup rest k

/-- Python data.get(k): the stored value, or None when absent. -/
def jget (d : List (String × JVal)) (k : String) : JVal :=
  (jlookup d k).getD .null

/-- The exception taxonomy of src/printpal/exceptions.py, restricted to
the structured context each class stores.  Messages are kept as JSON
values because _handle_response passes the raw body field through.
pythonError stands for an uncaught Python-level exception (for example
the ValueError that Path.with_suffix can raise). -/
inductive PPError where
  | printPalError (msg : JVal) (status_code : Option Nat)
  | authenticationError (msg : JVal)
  | insufficientCreditsError (msg : JVal) (credits_required credits_available : Option JVal)
  | rateLimitError (msg : JVal) (retry_after : Option String)
  | generationError (msg : JVal) (generation_uid : Option String)
  | notFoundError (msg : JVal)
  | validationError (msg : JVal)
  | timeoutError (msg : JVal)
  | serverError (msg : JVal) (status_code : Nat)
deriving DecidableEq

/-- True exactly on a ValidationError. -/
def PPError.isValidation : PPError → Bool
  | .validationError _ => true
  | _ => false

/-- True when an Except outcome is a raised ValidationError. -/
def isValidationErr {α : Type} : Except PPError α → Bool
  | .error e => e.isValidation
  | .ok _ => false

/-- An HTTP response as seen by PrintPal._handle_response: the numeric
status code, the parsed JSON body (none when response.json() raises, in
which case the code uses an empty dict), and the response headers. -/
structure HttpResponse where
  status_code : Nat
  body : Option (List (String × JVal))
  headers : List (String × String)
deriving DecidableEq

/-- Header lookup, modelling response.headers.get(k): the header value
string when present, otherwise None. -/
def hlookup : List (String × String) → String → Option String
  | [], _ => none
  | (k2, v) :: rest, k => if k2 = k then some v else hlookup rest k

/-- The error message selection of PrintPal._handle_response:
data.get("message") or data.get("error") or "Unknown error". -/
def errMsg (data : List (String × JVal)) : JVal :=
  pyOr (jget data "message") (pyOr (jget data "error") (.str "Unknown error"))

/-- Embedding of PrintPal._handle_response (src/printpal/client.py,
lines 131-165): 200/202 return the parsed body, every other status code
raises one of the typed exceptions. -/
def handle_response (r : HttpResponse) : Except PPError (List (String × JVal)) :=
  let data := r.body.getD []
  if r.status_code = 200 ∨ r.status_code = 202 then .ok data
  else
    let error_message := errMsg data
    if r.status_code = 401 then .error (.authenticationError error_message)
    else if r.status_code = 402 then
      .error (.insufficientCreditsError error_message
        (jlookup data "credits_required") (jlookup data "credits_available"))
    else if r.status_code = 404 then .error (.notFoundError error_message)
    else if r.status_code = 429 then
      .error (.rateLimitError error_message (hlookup r.headers "Retry-After"))
    else if r.status_code = 400 then .error (.validationError error_message)
    else if 500 ≤ r.status_code then .error (.serverError error_message r.status_code)
    else .error (.printPalError error_message (some r.status_code))

/-- Replacement of every "Z" by "+00:00" on a character list, modelling
the Python expression s.replace("Z", "+00:00") used before timestamp
parsing in models.py. -/
def pyReplaceZ : List Char → List Char
  | [] => []
  | c :: rest =>
    if c = 'Z' then '+' :: '0' :: '0' :: ':' :: '0' :: '0' :: pyReplaceZ rest
    else c :: pyReplaceZ rest

/-- Defensive timestamp extraction of GenerationStatus.from_response:
the field is parsed only when present, a string, and truthy; a parse
failure (ValueError) or a non-string value (AttributeError on .replace)
is swallowed and yields None.  datetime.fromisoformat itself is Python
standard library and is abstracted as the parseIso argument, returning
none exactly where Python raises ValueError. -/
def parseTs (parseIso : String → Option Int) (d : List (String × JVal)) (k : String) :
    Option Int :=
  match jlookup d k with
  | some (.str s) => if s = "" then none else parseIso (String.mk (pyReplaceZ s.data))
  | some _ => none
  | none => none

/-- Python data.get(k, dflt) read back through the declared str type of
the target dataclass field. -/
def jgetStrD (d : List (String × JVal)) (k : String) (dflt : String) : String :=
  match jlookup d k with
  | some (.str s) => s
  | some _ => dflt
  | none => dflt

/-- Python data.get(k) for an Optional[str] dataclass field. -/
def jgetStrOpt (d : List (String × JVal)) (k : String) : Option String :=
  match jlookup d k with
  | some (.str s) => some s
  | some _ => none
  | none => none

/-- Python data.get(k, dflt) for an int dataclass field. -/
def jgetIntD (d : List (String × JVal)) (k : String) (dflt : Int) : Int :=
  match jlookup d k with
  | some (.num n) => n
  | some _ => dflt
  | none => dflt

/-- Python data.get(k, dflt) for a bool dataclass field. -/
def jgetBoolD (d : List (String × JVal)) (k : String) (dflt : Bool) : Bool :=
  match jlookup d k with
  | some (.bool b) => b
  | some _ => dflt
  | none => dflt

/-- The GenerationStatus dataclass of src/printpal/models.py.
Timestamps are abstract instants (Int) produced by the parse function. -/
structure GenerationStatus where
  generation_uid : String
  status : String
  created_at : Option Int := none
  completed_at : Option Int := none
  quality : Option String := none
  format : Option String := none
  resolution : Option String := none
  download_url : Option String := none
  external_state : Option String := none
deriving DecidableEq

/-- GenerationStatus.is_completed. -/
def GenerationStatus.is_completed (s : GenerationStatus) : Bool :=
  s.status = "completed"

/-- GenerationStatus.is_failed. -/
def GenerationStatus.is_failed (s : GenerationStatus) : Bool :=
  s.status = "failed"

/-- GenerationStatus.from_response (models.py, lines 121-149),
parameterised by the datetime.fromisoformat primitive. -/
def GenerationStatus.from_response (parseIso : String → Option Int)
    (data : List (String × JVal)) : GenerationStatus :=
  { generation_uid := jgetStrD data "generation_uid" ""
    status := jgetStrD data "status" "unknown"
    created_at := parseTs parseIso data "created_at"
    completed_at := parseTs parseIso data "completed_at"
    quality := jgetStrOpt data "quality"
    format := jgetStrOpt data "format"
    resolution := jgetStrOpt data "resolution"
    download_url := jgetStrOpt data "download_url"
    external_state := jgetStrOpt data "external_state" }

/-- The GenerationResult dataclass of src/printpal/models.py. -/
structure GenerationResult where
  generation_uid : String
  status : String
  quality : String
  credits_used : Int
  credits_remaining : Int
  estimated_time_seconds : Int
  status_url : String
  download_url : String
  resolution : Option String := none
  has_texture : Bool := false
deriving DecidableEq

/-- GenerationResult.from_response (models.py, lines 186-200). -/
def GenerationResult.from_response (data : List (String × JVal)) : GenerationResult :=
  { generation_uid := jgetStrD data "generation_uid" ""
    status := jgetStrD data "status" ""
    quality := jgetStrD data "quality" ""
    credits_used := jgetIntD data "credits_used" 0
    credits_remaining := jgetIntD data "credits_remaining" 0
    estimated_time_seconds := jgetIntD data "estimated_time_seconds" 0
    status_url := jgetStrD data "status_url" ""
    download_url := jgetStrD data "download_url" ""
    resolution := jgetStrOpt data "resolution"
    has_texture := jgetBoolD data "has_texture" false }

/-- The CreditsInfo dataclass of src/printpal/models.py. -/
structure CreditsInfo where
  credits : Int
  user_id : Int
  username : String
deriving DecidableEq

/-- CreditsInfo.from_response (models.py, lines 216-223). -/
def CreditsInfo.from_response (data : List (String × JVal)) : CreditsInfo :=
  { credits := jgetIntD data "credits" 0
    user_id := jgetIntD data "user_id" 0
    username := jgetStrD data "username" "" }

/-- The GenerationRequest dataclass of src/printpal/models.py.  The
quality and format fields are modelled already-canonical (the isinstance
coercion branches of validate are identity on enum members); the float
guidance_scale is a rational. -/
structure GenerationRequest where
  quality : Quality
  format : Format
  num_inference_steps : Int
  guidance_scale : ℚ
  octree_resolution : Int

/-- GenerationRequest.validate (models.py, lines 33-72): the format must
belong to the quality tier according to VALID_FORMATS, and outside the
super family the three numeric knobs must lie in their fixed ranges.
Error messages are abridged to their fixed leading text. -/
def GenerationRequest.validate (r : GenerationRequest) : Except PPError Unit :=
  let valid_formats := dictGet VALID_FORMATS r.quality []
  if ¬ r.format ∈ valid_formats then
    .error (.validationError (.str
      ("Format " ++ r.format.value ++ " is not valid for quality " ++
        r.quality.value)))
  else if ¬ r.quality ∈ superFamily then
    if ¬ (1 ≤ r.num_inference_steps ∧ r.num_inference_steps ≤ 50) then
      .error (.validationError (.str "num_inference_steps must be between 1 and 50"))
    else if ¬ ((0.5 : ℚ) ≤ r.guidance_scale ∧ r.guidance_scale ≤ (10.0 : ℚ)) then
      .error (.validationError (.str "guidance_scale must be between 0.5 and 10.0"))
    else if ¬ r.octree_resolution ∈ [(128 : Int), 256, 512] then
      .error (.validationError (.str "octree_resolution must be 128, 256, or 512"))
    else .ok ()
  else .ok ()

/-- Form values sent in the multipart body of the generation endpoints. -/
inductive FormValue where
  | s (v : String)
  | i (v : Int)
  | q (v : ℚ)
deriving DecidableEq

/-- The outbound form data built by PrintPal.generate_from_image
(client.py, lines 370-395) after parameter validation: quality and
format always, and the three numeric knobs only when the quality is not
in the super family.  The image file itself and its existence check are
elided: they do not depend on the numeric knobs and contribute only the
files part of the request. -/
def generate_from_image_form (quality : Quality) (format : Format)
    (num_inference_steps : Int) (guidance_scale : ℚ) (octree_resolution : Int) :
    Except PPError (List (String × FormValue)) :=
  match (GenerationRequest.mk quality format num_inference_steps guidance_scale
      octree_resolution).validate with
  | .error e => .error e
  | .ok _ =>
    let data := [("quality", FormValue.s quality.value),
                 ("format", FormValue.s format.value)]
    let data :=
      if ¬ quality ∈ superFamily then
        data ++ [("num_inference_steps", FormValue.i num_inference_steps),
                 ("guidance_scale", FormValue.q guidance_scale),
                 ("octree_resolution", FormValue.i octree_resolution)]
      else data
    .ok data

/-- Whitespace characters stripped by Python str.strip (ASCII subset). -/
def isPySpace (c : Char) : Bool :=
  c = ' ' ∨ c = '\t' ∨ c = '\n' ∨ c = '\r' ∨ c = '\x0b' ∨ c = '\x0c'

/-- Python str.strip(): leading and trailing whitespace removed. -/
def pyStrip (s : String) : String :=
  String.mk (((s.data.dropWhile isPySpace).reverse.dropWhile isPySpace).reverse)

/-- The pre-network phase of PrintPal.generate_from_prompt (client.py,
lines 441-473): reject super-family qualities, validate the request,
reject empty or whitespace-only prompts, then build the form data. -/
def generate_from_prompt_form (prompt : String) (quality : Quality) (format : Format)
    (num_inference_steps : Int) (guidance_scale : ℚ) (octree_resolution : Int) :
    Except PPError (List (String × FormValue)) :=
  if quality ∈ superFamily then
    .error (.validationError (.str
      "Text-to-3D is not supported for super resolution. Please use generate_from_image instead."))
  else
    match (GenerationRequest.mk quality format num_inference_steps guidance_scale
        octree_resolution).validate with
    | .error e => .error e
    | .ok _ =>
      if prompt = "" ∨ pyStrip prompt = "" then
        .error (.validationError (.str "Prompt cannot be empty"))
      else
        .ok [("prompt", FormValue.s (pyStrip prompt)),
             ("quality", FormValue.s quality.value),
             ("format", FormValue.s format.value),
             ("num_inference_steps", FormValue.i num_inference_steps),
             ("guidance_scale", FormValue.q guidance_scale),
             ("octree_resolution", FormValue.i octree_resolution)]

/-- Timeout derivation of PrintPal.wait_for_completion when timeout is
None (client.py, lines 632-641): quality_str is the quality of the first
status response or "default" when that field is falsy; a recognised
quality is looked up in GENERATION_TIMEOUTS with fallback 600, an
unrecognised one uses the generous default 600. -/
def deriveTimeout (quality : Option String) : Nat :=
  let quality_str :=
    match quality with
    | none => "default"
    | some s => if s = "" then "default" else s
  match Quality.ofString? quality_str with
  | some q => dictGet GENERATION_TIMEOUTS q 600
  | none => 600

/-- Outcome of the poll loop: the returned final status, or the raised
exception. -/
inductive WaitOutcome where
  | finished (s : GenerationStatus)
  | raised (e : PPError)
deriving DecidableEq

/-- One iteration head of the while loop of wait_for_completion
(client.py, lines 643-663) at iteration i, in the order of the code:
return on completed, raise GenerationError (carrying the identifier) on
failed, raise TimeoutError when the elapsed time at this check has
reached the timeout; none means the loop sleeps and polls again. -/
def pollCheck (generation_uid : String) (timeout : ℚ) (elapsedAt : Nat → ℚ)
    (s : GenerationStatus) (i : Nat) : Option WaitOutcome :=
  if s.is_completed then some (.finished s)
  else if s.is_failed then
    some (.raised (.generationError (.str "Generation failed") (some generation_uid)))
  else if timeout ≤ elapsedAt i then
    some (.raised (.timeoutError (.str "Generation did not complete within the timeout")))
  else none

/-- The poll loop over a finite sequence of status responses, starting
at iteration i.  The callback is not modelled (it does not influence
control flow).  Returns the outcome together with the total number of
status polls issued (one per consumed response); none when the supplied
sequence is exhausted with the loop still in flight. -/
def runWait (generation_uid : String) (timeout : ℚ) (elapsedAt : Nat → ℚ) :
    List GenerationStatus → Nat → Option (WaitOutcome × Nat)
  | [], _ => none
  | s :: rest, i =>
    match pollCheck generation_uid timeout elapsedAt s i with
    | some o => some (o, i + 1)
    | none => runWait generation_uid timeout elapsedAt rest (i + 1)

/-- PrintPal.wait_for_completion (client.py, lines 627-665) over the
sequence of status responses the successive polls would observe: the
first response also fixes the timeout when none was supplied. -/
def wait_for_completion (generation_uid : String) (timeout : Option Nat)
    (elapsedAt : Nat → ℚ) (statuses : List GenerationStatus) :
    Option (WaitOutcome × Nat) :=
  match statuses with
  | [] => none
  | s :: rest =>
    let t : ℚ := ((timeout.getD (deriveTimeout s.quality) : Nat) : ℚ)
    runWait generation_uid t elapsedAt (s :: rest) 0

/-- ASCII lowercasing of one character, as Python str.lower acts on
ASCII input (format strings and file extensions here are ASCII). -/
def pyLower : Char → Char
  | 'A' => 'a' | 'B' => 'b' | 'C' => 'c' | 'D' => 'd' | 'E' => 'e'
  | 'F' => 'f' | 'G' => 'g' | 'H' => 'h' | 'I' => 'i' | 'J' => 'j'
  | 'K' => 'k' | 'L' => 'l' | 'M' => 'm' | 'N' => 'n' | 'O' => 'o'
  | 'P' => 'p' | 'Q' => 'q' | 'R' => 'r' | 'S' => 's' | 'T' => 't'
  | 'U' => 'u' | 'V' => 'v' | 'W' => 'w' | 'X' => 'x' | 'Y' => 'y'
  | 'Z' => 'z' | c => c

/-- Lowercasing of a character list. -/
def toLowerL (l : List Char) : List Char := l.map pyLower

/-- The final path component (the pathlib name) of a path string: the
characters after the last slash. -/
def lastSeg (p : String) : List Char :=
  (p.data.reverse.takeWhile (fun c => ¬ c = '/')).reverse

/-- The leading part of a path string up to and including the last
slash; the whole string splits as dirPart ++ lastSeg. -/
def dirPart (p : String) : List Char :=
  (p.data.reverse.dropWhile (fun c => ¬ c = '/')).reverse

/-- The characters after the last dot of a name. -/
def afterLastDot (l : List Char) : List Char :=
  (l.reverse.takeWhile (fun c => ¬ c = '.')).reverse

/-- The pathlib suffix of a file name (CPython PurePath.suffix): the
substring from the last dot, provided that dot is neither the first nor
the last character; otherwise empty. -/
def nameSuffix (l : List Char) : List Char :=
  if '.' ∈ l then
    let after := afterLastDot l
    let i := l.length - after.length - 1
    if 0 < i ∧ i < l.length - 1 then '.' :: after else []
  else []

/-- The pathlib suffix of a path string. -/
def pySuffix (p : String) : List Char := nameSuffix (lastSeg p)

/-- PurePath.with_suffix: replace the suffix of the final component.
none models the ValueError raised on a suffix containing a separator, a
suffix that is a lone dot or lacks its leading dot, or an empty name. -/
def with_suffix (p : String) (suffix : List Char) : Option String :=
  if '/' ∈ suffix then none
  else if ¬ suffix = [] ∧ ¬ suffix.headD ' ' = '.' then none
  else if suffix = ['.'] then none
  else
    let name := lastSeg p
    if name = [] then none
    else
      let old := nameSuffix name
      let stem := name.take (name.length - old.length)
      some (String.mk (dirPart p ++ stem ++ suffix))

/-- PrintPal._ensure_correct_extension (client.py, lines 263-304): keep
the path when its extension already matches the reported format
case-insensitively, replace a mismatching extension, and append the
format to an extensionless path.  Paths are modelled as their string
form; pathlib construction-time normalisation is not modelled, which is
transparent for paths whose final component is a plain name. -/
def ensure_correct_extension (output_path : String) (actual_format : String) :
    Option String :=
  let actual_ext := toLowerL actual_format.data
  let current_ext := (toLowerL (pySuffix output_path)).dropWhile (fun c => c = '.')
  if current_ext = actual_ext then some output_path
  else if ¬ current_ext = [] then with_suffix output_path ('.' :: actual_ext)
  else some (output_path ++ String.mk ('.' :: actual_ext))

/-- Network and filesystem actions performed by PrintPal.download, in
order: the download-handle request, the artifact GET, the file write. -/
inductive NetAction where
  | requestHandle (generation_uid : String)
  | fetchArtifact (url : String)
  | writeFile (path : String)
deriving DecidableEq

/-- PrintPal.download (client.py, lines 531-587), driven by the HTTP
response to the download-handle request and by the artifact transfer
result (none models a requests exception during the artifact GET).
Returns the ordered list of actions performed together with the
outcome.  A non-string stored under "format" is modelled as the default
"stl"; a non-string truthy "download_url" is modelled by its string
rendering being absent, which cannot occur on the error paths proved
below. -/
def download_model (generation_uid : String) (output_path : Option String)
    (handleResp : HttpResponse) (artifact : Option (List Nat)) :
    List NetAction × Except PPError String :=
  match handle_response handleResp with
  | .error e => ([.requestHandle generation_uid], .error e)
  | .ok download_info =>
    let file_format := jgetStrD download_info "format" "stl"
    if ¬ truthy (jget download_info "download_url") then
      ([.requestHandle generation_uid],
       .error (.generationError (.str "No download URL available") (some generation_uid)))
    else
      let download_url := jgetStrD download_info "download_url" ""
      let path :=
        match output_path with
        | some p => ensure_correct_extension p file_format
        | none =>
          some ("printpal_model_" ++ String.mk (generation_uid.data.take 8) ++
            "." ++ file_format)
      match path with
      | none =>
        ([.requestHandle generation_uid],
         .error (.printPalError (.str "ValueError: invalid suffix") none))
      | some outp =>
        match artifact with
        | some _ =>
          ([.requestHandle generation_uid, .fetchArtifact download_url, .writeFile outp],
           .ok outp)
        | none =>
          ([.requestHandle generation_uid, .fetchArtifact download_url],
           .error (.printPalError (.str "Failed to download model") none))

/-- Helper: validate either succeeds or raises a ValidationError. -/
theorem validate_cases (r : GenerationRequest) :
    r.validate = .ok () ∨ isValidationErr r.validate = true := by
  unfold GenerationRequest.validate
  by_cases hf : r.format ∈ dictGet VALID_FORMATS r.quality [] <;>
    split_ifs <;> simp [hf, isValidationErr, PPError.isValidation]

/-- Helper: validate never fails with anything but a ValidationError. -/
theorem validate_not_ok_validation (r : GenerationRequest)
    (h : ¬ r.validate = .ok ()) : isValidationErr r.validate = true := by
  rcases validate_cases r with h1 | h1
  · exact absurd h1 h
  · exact h1

/-- C10: in wait_for_completion with timeout=None, a first status with
no quality at all derives the "default" table entry of 120 seconds, not
the 600-second fallback for unrecognised quality strings. -/
theorem missing_quality_default_timeout :
    deriveTimeout none = dictGet GENERATION_TIMEOUTS Quality.default 600 ∧
    deriveTimeout none = 120 ∧ ¬ deriveTimeout none = 600 := by
  decide

/-- C2 counterexample: the empty string is not a valid Quality enum
value, yet the derived timeout for it is 120 seconds (Python treats the
falsy empty string like a missing quality), not the generous default of
600 seconds the claim requires for every invalid quality string. -/
theorem timeout_policy_counterexample :
    Quality.ofString? "" = none ∧
    deriveTimeout (some "") = 120 ∧ ¬ deriveTimeout (some "") = 600 := by
  decide

/-- C2 (amended): with timeout=None the timeout comes from the quality
of the first status response through GENERATION_TIMEOUTS (default 120,
high 180, ultra 300, super 360, super_texture 600, superplus 480,
superplus_texture 600); any non-empty quality string that is not a
valid Quality value yields the generous 600-second default (the empty
string is falsy and is treated as a missing quality instead); and the
elapsed-time check runs once per poll iteration before sleeping, so a
first check at or past the timeout stops after exactly one poll. -/
theorem timeout_policy_amended :
    (∀ q : Quality, deriveTimeout (some q.value) = dictGet GENERATION_TIMEOUTS q 600) ∧
    deriveTimeout (some "default") = 120 ∧
    deriveTimeout (some "high") = 180 ∧
    deriveTimeout (some "ultra") = 300 ∧
    deriveTimeout (some "super") = 360 ∧
    deriveTimeout (some "super_texture") = 600 ∧
    deriveTimeout (some "superplus") = 480 ∧
    deriveTimeout (some "superplus_texture") = 600 ∧
    (∀ s : String, ¬ s = "" → Quality.ofString? s = none →
      deriveTimeout (some s) = 600) ∧
    (∀ (uid : String) (e : Nat → ℚ) (s : GenerationStatus)
        (rest : List GenerationStatus),
      wait_for_completion uid none e (s :: rest) =
        runWait uid ((deriveTimeout s.quality : Nat) : ℚ) e (s :: rest) 0) ∧
    (∀ (uid : String) (tq : ℚ) (e : Nat → ℚ) (s : GenerationStatus)
        (rest : List GenerationStatus),
      s.is_completed = false → s.is_failed = false → tq ≤ e 0 →
      runWait uid tq e (s :: rest) 0 =
        some (.raised (.timeoutError
          (.str "Generation did not complete within the timeout")), 1)) := by
  refine ⟨?_, by decide, by decide, by decide, by decide, by decide,
    by decide, by decide, ?_, ?_, ?_⟩
  · intro q; cases q <;> decide
  · intro s hs hnone
    simp [deriveTimeout, hs, hnone]
  · intro uid e s rest
    rfl
  · intro uid tq e s rest h1 h2 h3
    simp [runWait, pollCheck, h1, h2, h3]

/-- Witness for the amended C2 theorem at concrete inputs. -/
theorem timeout_policy_amended_witness :
    deriveTimeout (some "plastic") = 600 ∧
    runWait "u1" 120 (fun _ => 200)
        [GenerationStatus.mk "u1" "processing" none none none none none none none] 0 =
      some (.raised (.timeoutError
        (.str "Generation did not complete within the timeout")), 1) := by
  obtain ⟨-, -, -, -, -, -, -, -, hunk, -, hto⟩ := timeout_policy_amended
  refine ⟨hunk "plastic" (by decide) (by decide), ?_⟩
  exact hto "u1" 120 (fun _ => 200)
    (GenerationStatus.mk "u1" "processing" none none none none none none none) []
    (by decide) (by decide) (by norm_num)

/-- C6: _handle_response returns the parsed JSON body on 200/202 and
otherwise raises the typed exception matching the status code:
AuthenticationError on 401, InsufficientCreditsError on 402 carrying
credits_required and credits_available from the body, NotFoundError on
404, RateLimitError on 429 carrying the Retry-After header,
ValidationError on 400, ServerError on any status at least 500, and the
catch-all PrintPalError on every other status code. -/
theorem handle_response_classification (code : Nat)
    (body : Option (List (String × JVal))) (hs : List (String × String)) :
    ((code = 200 ∨ code = 202) →
      handle_response ⟨code, body, hs⟩ = .ok (body.getD [])) ∧
    (code = 401 → handle_response ⟨code, body, hs⟩ =
      .error (.authenticationError (errMsg (body.getD [])))) ∧
    (code = 402 → handle_response ⟨code, body, hs⟩ =
      .error (.insufficientCreditsError (errMsg (body.getD []))
        (jlookup (body.getD []) "credits_required")
        (jlookup (body.getD []) "credits_available"))) ∧
    (code = 404 → handle_response ⟨code, body, hs⟩ =
      .error (.notFoundError (errMsg (body.getD [])))) ∧
    (code = 429 → handle_response ⟨code, body, hs⟩ =
      .error (.rateLimitError (errMsg (body.getD [])) (hlookup hs "Retry-After"))) ∧
    (code = 400 → handle_response ⟨code, body, hs⟩ =
      .error (.validationError (errMsg (body.getD [])))) ∧
    (500 ≤ code → handle_response ⟨code, body, hs⟩ =
      .error (.serverError (errMsg (body.getD [])) code)) ∧
    (¬ code ∈ [200, 202, 400, 401, 402, 404, 429] → code < 500 →
      handle_response ⟨code, body, hs⟩ =
      .error (.printPalError (errMsg (body.getD [])) (some code))) := by
  refine ⟨?_, ?_, ?_, ?_, ?_, ?_, ?_, ?_⟩
  · rintro (rfl | rfl) <;> rfl
  · rintro rfl; rfl
  · rintro rfl; rfl
  · rintro rfl; rfl
  · rintro rfl; rfl
  · rintro rfl; rfl
  · intro h
    simp only [handle_response]
    rw [if_neg (by omega), if_neg (by omega), if_neg (by omega),
      if_neg (by omega), if_neg (by omega), if_neg (by omega), if_pos h]
  · intro h h2
    simp only [List.mem_cons, List.mem_singleton] at h
    push_neg at h
    obtain ⟨n200, n202, n400, n401, n402, n404, n429, -⟩ := h
    simp only [handle_response]
    rw [if_neg (by tauto), if_neg n401, if_neg n402, if_neg n404,
      if_neg n429, if_neg n400, if_neg (by omega)]

/-- Witness for the _handle_response classification at concrete
responses covering the credit, rate-limit, server and catch-all arms. -/
theorem handle_response_classification_witness :
    handle_response ⟨402, some [("message", .str "no credits"),
        ("credits_required", .num 20), ("credits_available", .num 3)], []⟩ =
      .error (.insufficientCreditsError (.str "no credits")
        (some (.num 20)) (some (.num 3))) ∧
    handle_response ⟨429, none, [("Retry-After", "30")]⟩ =
      .error (.rateLimitError (.str "Unknown error") (some "30")) ∧
    handle_response ⟨503, none, []⟩ =
      .error (.serverError (.str "Unknown error") 503) ∧
    handle_response ⟨418, none, []⟩ =
      .error (.printPalError (.str "Unknown error") (some 418)) := by
  refine ⟨?_, ?_, ?_, ?_⟩
  · exact (handle_response_classification 402 (some [("message", .str "no credits"),
      ("credits_required", .num 20), ("credits_available", .num 3)]) []).2.2.1 rfl
  · exact (handle_response_classification 429 none [("Retry-After", "30")]).2.2.2.2.1 rfl
  · exact (handle_response_classification 503 none []).2.2.2.2.2.2.1 (by omega)
  · exact (handle_response_classification 418 none []).2.2.2.2.2.2.2 (by decide) (by omega)

/-- C8: downloading a generation whose download-handle request answers
with HTTP 400 (a non-completed generation) raises a ValidationError and
performs no artifact transfer and no file write: the only action is the
handle request itself. -/
theorem download_noncompleted_no_transfer (uid : String) (outp : Option String)
    (body : Option (List (String × JVal))) (hs : List (String × String))
    (artifact : Option (List Nat)) :
    download_model uid outp ⟨400, body, hs⟩ artifact =
      ([NetAction.requestHandle uid],
       .error (.validationError (errMsg (body.getD [])))) := by
  rfl

/-- Helper: the poll loop passes over a block of responses on which
every check is inconclusive, polling once per response. -/
theorem runWait_skip (uid : String) (t : ℚ) (e : Nat → ℚ) :
    ∀ (front rest : List GenerationStatus) (i : Nat),
      (∀ j, (h : j < front.length) →
        pollCheck uid t e (front.get ⟨j, h⟩) (i + j) = none) →
      runWait uid t e (front ++ rest) i = runWait uid t e rest (i + front.length) := by
  intro front
  induction front with
  | nil => intro rest i h; simp
  | cons s fr ih =>
    intro rest i h
    have h0 := h 0 (by simp)
    simp only [List.get] at h0
    simp only [List.cons_append, runWait]
    rw [show i + 0 = i from rfl] at h0
    rw [h0]
    have hrec := ih rest (i + 1) (fun j hj => by
      have := h (j + 1) (by simpa using Nat.succ_lt_succ hj)
      simpa [Nat.add_assoc, Nat.add_comm 1 j] using this)
    show runWait uid t e (fr ++ rest) (i + 1) = runWait uid t e rest (i + (s :: fr).length)
    rw [hrec]
    simp only [List.length_cons]
    congr 1
    omega

/-- C1: the poll loop of wait_for_completion, run against any sequence
of status responses whose first part keeps the loop in flight (no
terminal status, elapsed time below the timeout): on observing a
response with status "completed" it stops and returns that status; on
observing "failed" it stops by raising a GenerationError whose
generation_uid is the polled identifier; and when the elapsed-time
check of an iteration has reached the timeout with the response still
non-terminal it raises a TimeoutError, having issued exactly the polls
up to that check and none after. -/
theorem poll_loop_terminal_behavior (uid : String) (t : ℚ) (e : Nat → ℚ)
    (front rest : List GenerationStatus) (s : GenerationStatus)
    (hfront : ∀ p ∈ front, p.is_completed = false ∧ p.is_failed = false)
    (htime : ∀ j, j < front.length → e j < t) :
    (s.is_completed = true →
      runWait uid t e (front ++ s :: rest) 0 =
        some (.finished s, front.length + 1)) ∧
    (s.is_failed = true →
      runWait uid t e (front ++ s :: rest) 0 =
        some (.raised (.generationError (.str "Generation failed") (some uid)),
          front.length + 1)) ∧
    (s.is_completed = false → s.is_failed = false → t ≤ e front.length →
      runWait uid t e (front ++ s :: rest) 0 =
        some (.raised (.timeoutError
          (.str "Generation did not complete within the timeout")),
          front.length + 1)) := by
  have hskip := runWait_skip uid t e front (s :: rest) 0 (fun j hj => by
    have hm := hfront (front.get ⟨j, hj⟩) (front.get_mem _ _)
    have ht := htime j hj
    simp only [List.get_eq_getElem] at hm
    simp [pollCheck, hm.1, hm.2, Nat.zero_add, not_le.mpr ht])
  rw [Nat.zero_add] at hskip
  refine ⟨?_, ?_, ?_⟩
  · intro hc
    rw [hskip]
    simp [runWait, pollCheck, hc]
  · intro hf
    rw [hskip]
    have hc : s.is_completed = false := by
      unfold GenerationStatus.is_failed at hf
      unfold GenerationStatus.is_completed
      simp only [decide_eq_true_eq] at hf
      simp [hf]
    simp [runWait, pollCheck, hc, hf]
  · intro hc hf hto
    rw [hskip]
    simp [runWait, pollCheck, hc, hf, hto]

/-- Witness for the poll loop theorem: one in-flight response followed
by a completed one returns the completed status after two polls. -/
theorem poll_loop_terminal_behavior_witness :
    runWait "g1" 120 (fun _ => 1)
        [GenerationStatus.mk "g1" "processing" none none none none none none none,
         GenerationStatus.mk "g1" "completed" none none none none none none none] 0 =
      some (.finished
        (GenerationStatus.mk "g1" "completed" none none none none none none none), 2) := by
  exact (poll_loop_terminal_behavior "g1" 120 (fun _ => 1)
    [GenerationStatus.mk "g1" "processing" none none none none none none none] []
    (GenerationStatus.mk "g1" "completed" none none none none none none none)
    (by intro p hp; simp at hp; subst hp; constructor <;> decide)
    (by intro j hj; simp at hj; subst hj; norm_num)).1 (by decide)

/-- C3: for the tiers outside the super family (default, high, ultra),
validate succeeds exactly when the format is allowed for the tier by
VALID_FORMATS, num_inference_steps lies in [1,50], guidance_scale lies
in [0.5,10.0] and octree_resolution is one of 128, 256, 512; in every
other case it raises a ValidationError. -/
theorem validate_iff_nonsuper (q : Quality) (f : Format) (steps : Int)
    (scale : ℚ) (res : Int)
    (hq : q = Quality.default ∨ q = Quality.high ∨ q = Quality.ultra) :
    ((GenerationRequest.mk q f steps scale res).validate = .ok () ↔
      (f ∈ dictGet VALID_FORMATS q [] ∧ (1 ≤ steps ∧ steps ≤ 50) ∧
        ((0.5 : ℚ) ≤ scale ∧ scale ≤ (10.0 : ℚ)) ∧
        res ∈ [(128 : Int), 256, 512])) ∧
    (¬ (GenerationRequest.mk q f steps scale res).validate = .ok () →
      isValidationErr (GenerationRequest.mk q f steps scale res).validate = true) := by
  refine ⟨?_, validate_not_ok_validation _⟩
  have hsf : ¬ q ∈ superFamily := by
    rcases hq with rfl | rfl | rfl <;> decide
  unfold GenerationRequest.validate
  simp only [hsf, not_false_eq_true, if_true]
  split_ifs with h1 h2 h3 h4 <;> simp_all

/-- Witness for the validate characterisation at a concrete request. -/
theorem validate_iff_nonsuper_witness :
    ((GenerationRequest.mk Quality.default Format.stl 20 5 256).validate = .ok () ↔
      (Format.stl ∈ dictGet VALID_FORMATS Quality.default [] ∧
        ((1 : Int) ≤ 20 ∧ (20 : Int) ≤ 50) ∧
        ((0.5 : ℚ) ≤ 5 ∧ (5 : ℚ) ≤ (10.0 : ℚ)) ∧
        (256 : Int) ∈ [(128 : Int), 256, 512])) ∧
    (¬ (GenerationRequest.mk Quality.default Format.stl 20 5 256).validate = .ok () →
      isValidationErr (GenerationRequest.mk Quality.default Format.stl 20 5 256).validate =
        true) :=
  validate_iff_nonsuper Quality.default Format.stl 20 5 256 (Or.inl rfl)

/-- C4: for every super-family tier the three numeric knobs are neither
validated nor transmitted: the outcome of generate_from_image is the
same for any two assignments of the knobs, and a successful submission
carries exactly the quality and format fields in its form data. -/
theorem super_form_data_independent (q : Quality) (f : Format)
    (s1 : Int) (g1 : ℚ) (r1 : Int) (s2 : Int) (g2 : ℚ) (r2 : Int)
    (hq : q ∈ superFamily) :
    generate_from_image_form q f s1 g1 r1 = generate_from_image_form q f s2 g2 r2 ∧
    (∀ d, generate_from_image_form q f s1 g1 r1 = .ok d →
      d.map Prod.fst = ["quality", "format"]) := by
  fin_cases hq <;> cases f <;>
    exact ⟨rfl, fun d hd => by cases hd <;> rfl⟩

/-- Witness for knob independence at a concrete super-family request. -/
theorem super_form_data_independent_witness :
    generate_from_image_form Quality.super Format.stl 99 (99 : ℚ) 99 =
      generate_from_image_form Quality.super Format.stl 1 (1 : ℚ) 1 ∧
    (∀ d, generate_from_image_form Quality.super Format.stl 99 (99 : ℚ) 99 = .ok d →
      d.map Prod.fst = ["quality", "format"]) :=
  super_form_data_independent Quality.super Format.stl 99 99 99 1 1 1 (by decide)

/-- Helper: a string made only of whitespace strips to the empty
string. -/
theorem pyStrip_of_all_space (s : String) (h : s.data.all isPySpace = true) :
    pyStrip s = "" := by
  unfold pyStrip
  have h1 : s.data.dropWhile isPySpace = [] := by
    rw [List.dropWhile_eq_nil_iff]
    intro x hx
    exact List.all_eq_true.mp h x hx
  rw [h1]
  rfl

/-- C5: generate_from_prompt raises a ValidationError before any
network call for every super-family quality regardless of the prompt,
and for every empty or whitespace-only prompt regardless of the
quality. -/
theorem prompt_validation_rejects (prompt : String) (q : Quality) (f : Format)
    (steps : Int) (scale : ℚ) (res : Int)
    (h : q ∈ superFamily ∨ prompt.data.all isPySpace = true) :
    isValidationErr (generate_from_prompt_form prompt q f steps scale res) = true := by
  by_cases hq : q ∈ superFamily
  · simp [generate_from_prompt_form, hq, isValidationErr, PPError.isValidation]
  · have hw : prompt.data.all isPySpace = true := by tauto
    have hs : pyStrip prompt = "" := pyStrip_of_all_space prompt hw
    simp only [generate_from_prompt_form, if_neg hq]
    cases hv : (GenerationRequest.mk q f steps scale res).validate with
    | error e =>
      have := validate_not_ok_validation (GenerationRequest.mk q f steps scale res)
        (by simp [hv])
      rw [hv] at this
      simpa [isValidationErr] using this
    | ok u =>
      cases u
      simp [hs, isValidationErr, PPError.isValidation]

/-- Witness for the prompt rejection at a whitespace-only prompt and at
a super-family quality. -/
theorem prompt_validation_rejects_witness :
    isValidationErr (generate_from_prompt_form "   " Quality.default Format.stl
      20 (5 : ℚ) 256) = true ∧
    isValidationErr (generate_from_prompt_form "a robot" Quality.super Format.stl
      20 (5 : ℚ) 256) = true :=
  ⟨prompt_validation_rejects "   " Quality.default Format.stl 20 5 256
      (Or.inr (by decide)),
    prompt_validation_rejects "a robot" Quality.super Format.stl 20 5 256
      (Or.inl (by decide))⟩

/-- C9: from_response on well-formed payloads reads back exactly the
payload values for GenerationStatus, GenerationResult and CreditsInfo;
missing fields take the documented defaults (status "unknown" or "",
numeric fields 0, string fields "", timestamps None) and a malformed
timestamp yields None instead of a failure. -/
theorem from_response_round_trip (parseIso : String → Option Int)
    (uid st ca cb q fm rs du ex : String) (t1 t2 : Int) (bad : String)
    (hca : ¬ ca = "") (hcb : ¬ cb = "")
    (hp1 : parseIso (String.mk (pyReplaceZ ca.data)) = some t1)
    (hp2 : parseIso (String.mk (pyReplaceZ cb.data)) = some t2)
    (hbad : parseIso (String.mk (pyReplaceZ bad.data)) = none)
    (ruid rst rq : String) (cu cr ets : Int) (su dl rres : String) (ht : Bool)
    (cred uidn : Int) (un : String) :
    GenerationStatus.from_response parseIso
        [("generation_uid", .str uid), ("status", .str st), ("created_at", .str ca),
         ("completed_at", .str cb), ("quality", .str q), ("format", .str fm),
         ("resolution", .str rs), ("download_url", .str du),
         ("external_state", .str ex)] =
      ⟨uid, st, some t1, some t2, some q, some fm, some rs, some du, some ex⟩ ∧
    GenerationStatus.from_response parseIso [] =
      ⟨"", "unknown", none, none, none, none, none, none, none⟩ ∧
    (GenerationStatus.from_response parseIso [("created_at", .str bad)]).created_at =
      none ∧
    GenerationResult.from_response
        [("generation_uid", .str ruid), ("status", .str rst), ("quality", .str rq),
         ("credits_used", .num cu), ("credits_remaining", .num cr),
         ("estimated_time_seconds", .num ets), ("status_url", .str su),
         ("download_url", .str dl), ("resolution", .str rres),
         ("has_texture", .bool ht)] =
      ⟨ruid, rst, rq, cu, cr, ets, su, dl, some rres, ht⟩ ∧
    GenerationResult.from_response [] = ⟨"", "", "", 0, 0, 0, "", "", none, false⟩ ∧
    CreditsInfo.from_response
        [("credits", .num cred), ("user_id", .num uidn), ("username", .str un)] =
      ⟨cred, uidn, un⟩ ∧
    CreditsInfo.from_response [] = ⟨0, 0, ""⟩ := by
  refine ⟨?_, rfl, ?_, rfl, rfl, rfl, rfl⟩
  · simp [GenerationStatus.from_response, parseTs, jlookup, jgetStrD, jgetStrOpt,
      hca, hcb, hp1, hp2]
  · by_cases hb : bad = ""
    · subst hb
      rfl
    · simp [GenerationStatus.from_response, parseTs, jlookup, hb, hbad]

/-- Witness for the round-trip theorem at a concrete payload and a
concrete ISO-timestamp parser. -/
theorem from_response_round_trip_witness :
    GenerationStatus.from_response
        (fun s => if s = "2024-01-01T00:00:00+00:00" then some 1704067200 else none)
        [("generation_uid", .str "g9"), ("status", .str "completed"),
         ("created_at", .str "2024-01-01T00:00:00Z"),
         ("completed_at", .str "2024-01-01T00:00:00Z"), ("quality", .str "high"),
         ("format", .str "glb"), ("resolution", .str "384 cubed"),
         ("download_url", .str "http://d"), ("external_state", .str "done")] =
      ⟨"g9", "completed", some 1704067200, some 1704067200, some "high", some "glb",
        some "384 cubed", some "http://d", some "done"⟩ ∧
    GenerationStatus.from_response
        (fun s => if s = "2024-01-01T00:00:00+00:00" then some 1704067200 else none) [] =
      ⟨"", "unknown", none, none, none, none, none, none, none⟩ ∧
    (GenerationStatus.from_response
        (fun s => if s = "2024-01-01T00:00:00+00:00" then some 1704067200 else none)
        [("created_at", .str "not-a-date")]).created_at = none ∧
    GenerationResult.from_response
        [("generation_uid", .str "g9"), ("status", .str "pending"),
         ("quality", .str "super"), ("credits_used", .num 20),
         ("credits_remaining", .num 80), ("estimated_time_seconds", .num 120),
         ("status_url", .str "http://s"), ("download_url", .str "http://d"),
         ("resolution", .str "768 cubed"), ("has_texture", .bool true)] =
      ⟨"g9", "pending", "super", 20, 80, 120, "http://s", "http://d",
        some "768 cubed", true⟩ ∧
    GenerationResult.from_response [] = ⟨"", "", "", 0, 0, 0, "", "", none, false⟩ ∧
    CreditsInfo.from_response
        [("credits", .num 42), ("user_id", .num 7), ("username", .str "pat")] =
      ⟨42, 7, "pat"⟩ ∧
    CreditsInfo.from_response [] = ⟨0, 0, ""⟩ :=
  from_response_round_trip
    (fun s => if s = "2024-01-01T00:00:00+00:00" then some 1704067200 else none)
    "g9" "completed" "2024-01-01T00:00:00Z" "2024-01-01T00:00:00Z" "high" "glb"
    "384 cubed" "http://d" "done" 1704067200 1704067200 "not-a-date"
    (by decide) (by decide) (by decide) (by decide) (by decide)
    "g9" "pending" "super" 20 80 120 "http://s" "http://d" "768 cubed" true
    42 7 "pat"

/-- The lowercase ASCII letters, the possible outputs of pyLower other
than the input itself. -/
def lowerAscii : List Char :=
  ['a', 'b', 'c', 'd', 'e', 'f', 'g', 'h', 'i', 'j', 'k', 'l', 'm',
   'n', 'o', 'p', 'q', 'r', 's', 't', 'u', 'v', 'w', 'x', 'y', 'z']

/-- Helper: pyLower leaves a character unchanged or maps it to a
lowercase letter. -/
theorem pyLower_spec (c : Char) : pyLower c = c ∨ pyLower c ∈ lowerAscii := by
  unfold pyLower
  split <;> first
    | exact Or.inl rfl
    | decide

/-- Helper: pyLower is idempotent. -/
theorem pyLower_idem (c : Char) : pyLower (pyLower c) = pyLower c := by
  rcases pyLower_spec c with h | h
  · rw [h]; exact h
  · have hall : ∀ x ∈ lowerAscii, pyLower x = x := by decide
    exact hall (pyLower c) h

/-- Helper: lowercasing twice is lowercasing once. -/
theorem toLowerL_idem (l : List Char) : toLowerL (toLowerL l) = toLowerL l := by
  simp [toLowerL, List.map_map, Function.comp, pyLower_idem]

/-- Helper: pyLower never produces a dot from a non-dot. -/
theorem pyLower_ne_dot (c : Char) (h : ¬ c = '.') : ¬ pyLower c = '.' := by
  rcases pyLower_spec c with h1 | h1
  · rw [h1]; exact h
  · intro h2
    rw [h2] at h1
    exact absurd h1 (by decide)

/-- Helper: pyLower never produces a slash from a non-slash. -/
theorem pyLower_ne_slash (c : Char) (h : ¬ c = '/') : ¬ pyLower c = '/' := by
  rcases pyLower_spec c with h1 | h1
  · rw [h1]; exact h
  · intro h2
    rw [h2] at h1
    exact absurd h1 (by decide)

/-- Helper: takeWhile distributes over an append whose first part
satisfies the predicate throughout. -/
theorem takeWhile_append_all {α : Type} (p : α → Bool) (l1 l2 : List α)
    (h : ∀ a ∈ l1, p a = true) :
    (l1 ++ l2).takeWhile p = l1 ++ l2.takeWhile p := by
  induction l1 with
  | nil => simp
  | cons a l ih =>
    have ha := h a (by simp)
    simp only [List.cons_append, List.takeWhile_cons, ha, if_true]
    rw [ih (fun b hb => h b (by simp [hb]))]

/-- Helper: dropWhile is the identity when no element satisfies the
predicate. -/
theorem dropWhile_all_false {α : Type} (p : α → Bool) (l : List α)
    (h : ∀ a ∈ l, p a = false) :
    l.dropWhile p = l := by
  cases l with
  | nil => rfl
  | cons a t =>
    simp only [List.dropWhile_cons, h a (by simp), Bool.false_eq_true, if_false]

/-- Helper: dropWhile yields nil or starts with an element failing the
predicate. -/
theorem dropWhile_nil_or_head_false {α : Type} (p : α → Bool) (l : List α) :
    l.dropWhile p = [] ∨ ∃ a t, l.dropWhile p = a :: t ∧ p a = false := by
  induction l with
  | nil => exact Or.inl rfl
  | cons a t ih =>
    by_cases h : p a = true
    · rw [List.dropWhile_cons_of_pos h]
      exact ih
    · right
      refine ⟨a, t, List.dropWhile_cons_of_neg ?_, ?_⟩ <;> simpa using h

/-- Helper: the final path component contains no slash. -/
theorem lastSeg_no_slash (p : String) : ∀ c ∈ lastSeg p, ¬ c = '/' := by
  intro c hc
  unfold lastSeg at hc
  rw [List.mem_reverse] at hc
  have h2 := List.mem_takeWhile_imp hc
  simpa using h2

/-- Helper: a path string splits into its directory part and its final
component. -/
theorem dirPart_append_lastSeg (p : String) : dirPart p ++ lastSeg p = p.data := by
  unfold dirPart lastSeg
  rw [← List.reverse_append, List.takeWhile_append_dropWhile, List.reverse_reverse]

/-- Helper: the directory part is empty or ends with a slash. -/
theorem dirPart_structure (p : String) :
    dirPart p = [] ∨ ∃ l0, dirPart p = l0 ++ ['/'] := by
  unfold dirPart
  rcases dropWhile_nil_or_head_false (fun c => ¬ c = '/') p.data.reverse with
    h | ⟨a, t, h, ha⟩
  · left
    rw [h]
    rfl
  · right
    have ha2 : a = '/' := by simpa using ha
    refine ⟨t.reverse, ?_⟩
    rw [h, ha2]
    simp

/-- Helper: the final component of a string whose data is a slash-ended
(or empty) part followed by a slash-free tail is that tail. -/
theorem lastSeg_of_data (s : String) (l tail : List Char)
    (hs : s.data = l ++ tail)
    (hl : l = [] ∨ ∃ l0, l = l0 ++ ['/'])
    (htail : ∀ c ∈ tail, ¬ c = '/') :
    lastSeg s = tail := by
  unfold lastSeg
  rw [hs, List.reverse_append]
  rw [takeWhile_append_all _ tail.reverse l.reverse (by
    intro a ha
    rw [List.mem_reverse] at ha
    simpa using htail a ha)]
  have hz : l.reverse.takeWhile (fun c => decide ¬ c = '/') = [] := by
    rcases hl with rfl | ⟨l0, rfl⟩
    · rfl
    · rw [List.reverse_append]
      simp [List.takeWhile_cons]
  rw [hz]
  simp

/-- Helper: the characters after the last dot of a name ending in a
dot-free extension block are exactly that block. -/
theorem afterLastDot_append (n ext : List Char) (hext : ∀ c ∈ ext, ¬ c = '.') :
    afterLastDot (n ++ '.' :: ext) = ext := by
  unfold afterLastDot
  rw [List.reverse_append, List.reverse_cons, List.append_assoc]
  rw [takeWhile_append_all _ ext.reverse (['.'] ++ n.reverse) (by
    intro a ha
    rw [List.mem_reverse] at ha
    simpa using hext a ha)]
  simp [List.takeWhile_cons]

/-- Helper: the pathlib suffix of a name formed by a nonempty stem, a
dot, and a nonempty dot-free extension is the dot plus the extension. -/
theorem nameSuffix_append (n ext : List Char) (hn : ¬ n = [])
    (hext : ∀ c ∈ ext, ¬ c = '.') (hene : ¬ ext = []) :
    nameSuffix (n ++ '.' :: ext) = '.' :: ext := by
  have hlen : 0 < n.length := List.length_pos.mpr hn
  have hlene : 0 < ext.length := List.length_pos.mpr hene
  simp only [nameSuffix, afterLastDot_append n ext hext]
  rw [if_pos (by simp)]
  rw [if_pos (by
    simp only [List.length_append, List.length_cons]
    omega)]

/-- Helper: a name with a nonempty pathlib suffix decomposes into a
nonempty stem, a dot, and a nonempty dot-free extension, with the stem
recoverable by take. -/
theorem nameSuffix_decomp (n : List Char) (h : ¬ nameSuffix n = []) :
    ∃ stem after, nameSuffix n = '.' :: after ∧ (∀ c ∈ after, ¬ c = '.') ∧
      ¬ after = [] ∧ ¬ stem = [] ∧ n = stem ++ '.' :: after ∧
      stem = n.take (n.length - (nameSuffix n).length) := by
  by_cases hdot : '.' ∈ n
  · by_cases hcond : 0 < n.length - (afterLastDot n).length - 1 ∧
        n.length - (afterLastDot n).length - 1 < n.length - 1
    · have hns : nameSuffix n = '.' :: afterLastDot n := by
        simp only [nameSuffix]
        rw [if_pos hdot, if_pos hcond]
      rcases dropWhile_nil_or_head_false (fun c => ¬ c = '.') n.reverse with
        hnil | ⟨a, t, hdw, ha⟩
      · exfalso
        rw [List.dropWhile_eq_nil_iff] at hnil
        have := hnil '.' (by rw [List.mem_reverse]; exact hdot)
        simp at this
      · have ha2 : a = '.' := by simpa using ha
        subst ha2
        have hdecomp : n = t.reverse ++ '.' :: afterLastDot n := by
          conv_lhs => rw [← List.reverse_reverse n,
            ← List.takeWhile_append_dropWhile (p := fun c => decide ¬ c = '.')
              (l := n.reverse)]
          rw [List.reverse_append, hdw]
          simp [afterLastDot]
        have hmem : ∀ c ∈ afterLastDot n, ¬ c = '.' := by
          intro c hc
          unfold afterLastDot at hc
          rw [List.mem_reverse] at hc
          have := List.mem_takeWhile_imp hc
          simpa using this
        have hlt : t.reverse.length + 1 + (afterLastDot n).length = n.length := by
          conv_rhs => rw [hdecomp]
          simp only [List.length_append, List.length_cons, List.length_reverse]
          omega
        refine ⟨t.reverse, afterLastDot n, hns, hmem, ?_, ?_, hdecomp, ?_⟩
        · intro hempty
          have hz : (afterLastDot n).length = 0 := by rw [hempty]; rfl
          omega
        · intro hempty
          have hz : t.reverse.length = 0 := by rw [hempty]; rfl
          omega
        · rw [hns]
          have h9 : n.length - ('.' :: afterLastDot n).length = t.reverse.length := by
            simp only [List.length_cons]
            omega
          rw [h9]
          conv_rhs => rw [hdecomp]
          rw [List.take_left]
    · exfalso
      apply h
      simp only [nameSuffix]
      rw [if_pos hdot, if_neg hcond]
  · exfalso
    apply h
    simp only [nameSuffix]
    rw [if_neg hdot]

/-- Helper: the pathlib suffix of a path built from a directory part, a
nonempty slash-free stem, a dot, and a nonempty dot-free slash-free
tail is the dot plus the tail. -/
theorem pySuffix_constructed (p : String) (stem tail : List Char) (res : String)
    (hres : res.data = dirPart p ++ (stem ++ '.' :: tail))
    (hstem_ne : ¬ stem = []) (hstem_slash : ∀ c ∈ stem, ¬ c = '/')
    (htail_dot : ∀ c ∈ tail, ¬ c = '.') (htail_slash : ∀ c ∈ tail, ¬ c = '/')
    (htail_ne : ¬ tail = []) :
    pySuffix res = '.' :: tail := by
  unfold pySuffix
  rw [lastSeg_of_data res (dirPart p) (stem ++ '.' :: tail) hres (dirPart_structure p)
    (by
      intro c hc
      rw [List.mem_append] at hc
      rcases hc with hc | hc
      · exact hstem_slash c hc
      · rw [List.mem_cons] at hc
        rcases hc with rfl | hc
        · decide
        · exact htail_slash c hc)]
  exact nameSuffix_append stem tail hstem_ne htail_dot htail_ne

/-- Helper: lowering then dot-stripping a suffix made of a dot and a
dot-free block yields the lowered block. -/
theorem lowered_strip (lfmt : List Char) (hd : ∀ c ∈ lfmt, ¬ c = '.') :
    (toLowerL ('.' :: lfmt)).dropWhile (fun c => c = '.') = toLowerL lfmt := by
  simp only [toLowerL, List.map_cons]
  rw [List.dropWhile_cons_of_pos (by decide)]
  exact dropWhile_all_false _ _ (fun a ha => by
    rw [List.mem_map] at ha
    obtain ⟨b, hb, rfl⟩ := ha
    simpa using pyLower_ne_dot b (hd b hb))

/-- C7 (amended): for every output path with a nonempty final component
and every reported format that is a plain extension token (nonempty,
containing neither a dot nor a slash), _ensure_correct_extension
succeeds and returns a path whose extension, compared
case-insensitively, equals the reported format; a path with no
extension gets the lowercased format appended as its extension.  For a
format containing a dot the corrected extension is only the part after
the last dot, so the unrestricted claim fails (see the
counterexample). -/
theorem extension_correction_amended (path fmt : String)
    (hfmt_ne : ¬ fmt.data = [])
    (hchars : ∀ c ∈ fmt.data, ¬ c = '.' ∧ ¬ c = '/')
    (hname : ¬ lastSeg path = []) :
    ∃ res, ensure_correct_extension path fmt = some res ∧
      (toLowerL (pySuffix res)).dropWhile (fun c => c = '.') = toLowerL fmt.data ∧
      (pySuffix path = [] → res = path ++ String.mk ('.' :: toLowerL fmt.data)) := by
  have hlf_dot : ∀ c ∈ toLowerL fmt.data, ¬ c = '.' := by
    intro c hc
    simp only [toLowerL, List.mem_map] at hc
    obtain ⟨b, hb, rfl⟩ := hc
    exact pyLower_ne_dot b (hchars b hb).1
  have hlf_slash : ∀ c ∈ toLowerL fmt.data, ¬ c = '/' := by
    intro c hc
    simp only [toLowerL, List.mem_map] at hc
    obtain ⟨b, hb, rfl⟩ := hc
    exact pyLower_ne_slash b (hchars b hb).2
  have hlf_ne : ¬ toLowerL fmt.data = [] := by
    intro habs
    apply hfmt_ne
    have hlen := congrArg List.length habs
    simp only [toLowerL, List.length_map, List.length_nil] at hlen
    exact List.length_eq_zero.mp hlen
  have hstrip : (toLowerL ('.' :: toLowerL fmt.data)).dropWhile (fun c => c = '.') =
      toLowerL fmt.data := by
    rw [lowered_strip (toLowerL fmt.data) hlf_dot, toLowerL_idem]
  by_cases hce : (toLowerL (pySuffix path)).dropWhile (fun c => c = '.') =
      toLowerL fmt.data
  · refine ⟨path, ?_, hce, ?_⟩
    · simp only [ensure_correct_extension]
      rw [if_pos hce]
    · intro habs
      exfalso
      apply hlf_ne
      rw [← hce, habs]
      rfl
  · by_cases hne : (toLowerL (pySuffix path)).dropWhile (fun c => c = '.') = []
    · refine ⟨path ++ String.mk ('.' :: toLowerL fmt.data), ?_, ?_, fun _ => rfl⟩
      · simp only [ensure_correct_extension]
        rw [if_neg hce, if_neg (fun hc => hc hne)]
      · have hres : (path ++ String.mk ('.' :: toLowerL fmt.data)).data =
            dirPart path ++ (lastSeg path ++ '.' :: toLowerL fmt.data) := by
          show path.data ++ ('.' :: toLowerL fmt.data) = _
          rw [← dirPart_append_lastSeg path, List.append_assoc]
        have hps := pySuffix_constructed path (lastSeg path) (toLowerL fmt.data)
          (path ++ String.mk ('.' :: toLowerL fmt.data)) hres hname
          (lastSeg_no_slash path) hlf_dot hlf_slash hlf_ne
        rw [hps]
        exact hstrip
    · have hsfx : ¬ pySuffix path = [] := by
        intro habs
        apply hne
        rw [habs]
        rfl
      obtain ⟨stem, after, hns, hafter_dot, hafter_ne, hstem_ne, hdecomp, hstem_take⟩ :=
        nameSuffix_decomp (lastSeg path) hsfx
      have hc1 : ¬ '/' ∈ '.' :: toLowerL fmt.data := by
        intro hmem
        rw [List.mem_cons] at hmem
        rcases hmem with hmem | hmem
        · exact absurd hmem (by decide)
        · exact hlf_slash '/' hmem rfl
      have hc2 : ¬ (¬ ('.' :: toLowerL fmt.data) = [] ∧
          ¬ ('.' :: toLowerL fmt.data).headD ' ' = '.') :=
        fun hc => hc.2 rfl
      have hc3 : ¬ ('.' :: toLowerL fmt.data) = ['.'] := by
        simp [hlf_ne]
      refine ⟨String.mk (dirPart path ++ (stem ++ '.' :: toLowerL fmt.data)), ?_, ?_, ?_⟩
      · simp only [ensure_correct_extension]
        rw [if_neg hce, if_pos hne]
        simp only [with_suffix]
        rw [if_neg hc1, if_neg hc2, if_neg hc3, if_neg hname]
        rw [← hstem_take, List.append_assoc]
      · have hres : (String.mk (dirPart path ++ (stem ++ '.' :: toLowerL fmt.data))).data =
            dirPart path ++ (stem ++ '.' :: toLowerL fmt.data) := rfl
        have hstem_slash : ∀ c ∈ stem, ¬ c = '/' := by
          intro c hc
          apply lastSeg_no_slash path
          rw [hdecomp]
          exact List.mem_append_left _ hc
        have hps := pySuffix_constructed path stem (toLowerL fmt.data)
          (String.mk (dirPart path ++ (stem ++ '.' :: toLowerL fmt.data))) hres
          hstem_ne hstem_slash hlf_dot hlf_slash hlf_ne
        rw [hps]
        exact hstrip
      · intro habs
        exact absurd habs hsfx

/-- C7 counterexample: for the caller path "model.stl" and the reported
format string "tar.gz", the corrected path is "model.tar.gz", whose
file extension is "gz" and does not equal the reported format even
case-insensitively, so the claim quantified over every format string
fails. -/
theorem extension_correction_counterexample :
    ensure_correct_extension "model.stl" "tar.gz" = some "model.tar.gz" ∧
    ¬ (toLowerL (pySuffix "model.tar.gz")).dropWhile (fun c => c = '.') =
        toLowerL ("tar.gz").data := by
  constructor
  · decide
  · decide

/-- Witness for the amended extension-correction theorem: a glb result
downloaded to a path ending in .stl, and to an extensionless path. -/
theorem extension_correction_amended_witness :
    (∃ res, ensure_correct_extension "model.stl" "glb" = some res ∧
      (toLowerL (pySuffix res)).dropWhile (fun c => c = '.') =
        toLowerL ("glb").data ∧
      (pySuffix "model.stl" = [] →
        res = "model.stl" ++ String.mk ('.' :: toLowerL ("glb").data))) ∧
    (∃ res, ensure_correct_extension "model" "glb" = some res ∧
      (toLowerL (pySuffix res)).dropWhile (fun c => c = '.') =
        toLowerL ("glb").data ∧
      (pySuffix "model" = [] →
        res = "model" ++ String.mk ('.' :: toLowerL ("glb").data))) :=
  ⟨extension_correction_amended "model.stl" "glb" (by decide) (by decide) (by decide),
   extension_correction_amended "model" "glb" (by decide) (by decide) (by decide)⟩
